import Mathlib

/-!
Shallow embedding of the carbon-emission accounting tool's core
(factor matching, override reconciliation, emission calculation,
aggregation, the upload-column validation, the match-rate metric and
the formula-export arithmetic), together with theorems checking the
specification's claims against it.

Numbers are modelled as exact rationals; Python/pandas string
operations are modelled over Lean `String` (both compare by Unicode
code point).  Chinese string literals are kept verbatim from the
source so each definition can be diffed against `app.py` directly.
-/

/-- Substring containment test, modelling Python's `needle in hay`. -/
def strContains (hay needle : String) : Bool :=
  (List.range (hay.toList.length + 1)).any fun i =>
    needle.toList.isPrefixOf (hay.toList.drop i)

/-- One entry of the emission-factor library
(`st.session_state.emission_factors` values, app.py lines 43-59). -/
structure FactorInfo where
  factor : ℚ
  unit : String
  ghg_type : String
deriving DecidableEq, Repr

/-- The built-in seed factor library (app.py lines 43-59); a Python
dict with distinct keys is modelled as an association list. -/
def emission_factors : List (String × FactorInfo) :=
  [("固定燃烧-天然气", ⟨2.1622, "kgCO2/m3", "CO2"⟩),
   ("固定燃烧-煤炭", ⟨2.38, "kgCO2/kg", "CO2"⟩),
   ("固定燃烧-柴油", ⟨3.0959, "kgCO2/kg", "CO2"⟩),
   ("固定燃烧-汽油", ⟨2.9251, "kgCO2/kg", "CO2"⟩),
   ("移动燃烧-汽油", ⟨2.9251, "kgCO2/kg", "CO2"⟩),
   ("移动燃烧-柴油", ⟨3.0959, "kgCO2/kg", "CO2"⟩),
   ("工艺排放-丙烷", ⟨2.9761, "kgCO2/kg", "CO2"⟩),
   ("工艺排放-二氧化碳", ⟨1.0, "kgCO2/kg", "CO2"⟩),
   ("无组织排放-R410A", ⟨2088, "kgCO2e/kg", "HFCs"⟩),
   ("无组织排放-R32", ⟨675, "kgCO2e/kg", "HFCs"⟩),
   ("无组织排放-甲烷(化粪池)", ⟨22.4, "kgCO2e/kgBOD", "CH4"⟩),
   ("外购电力-全国平均", ⟨0.5703, "kgCO2/kWh", "CO2"⟩),
   ("外购电力-华北区域", ⟨0.8843, "kgCO2/kWh", "CO2"⟩),
   ("外购电力-华东区域", ⟨0.7035, "kgCO2/kWh", "CO2"⟩),
   ("外购热力-蒸汽", ⟨110, "kgCO2/GJ", "CO2"⟩)]

/-- An uploaded activity row (the six required template columns,
app.py lines 114-120 and 156). -/
structure Row where
  category : String
  subcategory : String
  source : String
  facility : String
  quantity : ℚ
  unit : String
deriving DecidableEq, Repr

/-- A row decorated by the matcher with the six added columns
(app.py lines 199-204). -/
structure MatchedRow extends Row where
  suggested : String
  factor : ℚ
  factorUnit : String
  ghg_type : String
  status : String
  provenance : String
deriving DecidableEq, Repr

/-- A matched row decorated by the calculation step
(app.py lines 332-334). -/
structure ComputedRow extends MatchedRow where
  emissionKg : ℚ
  emissionTonnes : ℚ
  scope : String
deriving DecidableEq, Repr

/-- Candidate factor key derivation (app.py lines 210-223): the chain
of substring tests on the subcategory, with the purchased-electricity
collapse to the national grid average when the source mentions 电. -/
def deriveKey (subcat source : String) : String :=
  if strContains subcat "1.1" then "固定燃烧-" ++ source
  else if strContains subcat "1.2" then "移动燃烧-" ++ source
  else if strContains subcat "1.3" then "工艺排放-" ++ source
  else if strContains subcat "1.4" then "无组织排放-" ++ source
  else if strContains subcat "2.1" then
    (if strContains source "电" then "外购电力-全国平均" else "外购电力-" ++ source)
  else if strContains subcat "2.2" then "外购热力-" ++ source
  else ""

/-- One matcher iteration (app.py lines 206-239).  Python's
`if key and key in dict` is the guarded lookup: an empty key never
hits the library. -/
def matchRow (lib : List (String × FactorInfo)) (r : Row) : MatchedRow :=
  let key := deriveKey r.subcategory r.source
  match (if key = "" then none else List.lookup key lib) with
  | some info =>
      { toRow := r, suggested := key, factor := info.factor,
        factorUnit := info.unit, ghg_type := info.ghg_type,
        status := "✅ 已匹配", provenance := "因子库" }
  | none =>
      { toRow := r, suggested := if key = "" then "未识别" else key,
        factor := 0, factorUnit := "待补充", ghg_type := "CO2",
        status := "❌ 未匹配", provenance := "待补充" }

/-- The matcher run over a whole table. -/
def matchAll (lib : List (String × FactorInfo)) (rows : List Row) :
    List MatchedRow :=
  rows.map (matchRow lib)

/-- One override-reconciliation iteration (app.py lines 284-290):
`orig` is the row as the matcher most recently left it
(`st.session_state.matched_data`), `edited` the user-edited copy. -/
def reconcileRow (orig edited : MatchedRow) : MatchedRow :=
  if edited.factor ≠ orig.factor then
    { edited with provenance := "手动修改", status := "✏️ 手动" }
  else if 0 < edited.factor then
    (if edited.provenance ≠ "手动修改" then
      { edited with status := "✅ 已匹配" }
     else edited)
  else edited

/-- The calculation step for one row (app.py lines 332-334). -/
def computeRow (m : MatchedRow) : ComputedRow :=
  { toMatchedRow := m,
    emissionKg := m.quantity * m.factor,
    emissionTonnes := m.quantity * m.factor / 1000,
    scope := if strContains m.category "直接" then "范围一" else "范围二" }

/-- The calculation step over the whole confirmed table
(`calc_df`, app.py lines 331-334). -/
def calcAll (ms : List MatchedRow) : List ComputedRow :=
  ms.map computeRow

/-- `calc_df['排放量(tCO2e)'].sum()` (app.py line 336). -/
def total_emission (rows : List ComputedRow) : ℚ :=
  (rows.map (fun r => r.emissionTonnes)).sum

/-- One bucket of a pandas `groupby(col)['排放量(tCO2e)'].sum()`:
the tonnes of the rows whose `f`-column equals `k`. -/
def fiberSum (rows : List ComputedRow) (f : ComputedRow → String)
    (k : String) : ℚ :=
  ((rows.filter (fun r => decide (f r = k))).map
    (fun r => r.emissionTonnes)).sum

/-- The sum of all buckets of a groupby partition; pandas takes the
distinct values of the grouped column as keys (their order does not
affect this sum). -/
def groupTotal (rows : List ComputedRow) (f : ComputedRow → String) : ℚ :=
  (((rows.map f).dedup).map (fiberSum rows f)).sum

/-- `scope_summary.get('范围一', 0)` (app.py lines 337-338). -/
def scope1 (rows : List ComputedRow) : ℚ :=
  fiberSum rows (fun r => r.scope) "范围一"

/-- `scope_summary.get('范围二', 0)` (app.py lines 337-339). -/
def scope2 (rows : List ComputedRow) : ℚ :=
  fiberSum rows (fun r => r.scope) "范围二"

/-- `scope1/total_emission*100 if total_emission > 0 else 0`
(app.py line 351). -/
def scope1Pct (rows : List ComputedRow) : ℚ :=
  if 0 < total_emission rows then scope1 rows / total_emission rows * 100
  else 0

/-- `scope2/total_emission*100 if total_emission > 0 else 0`
(app.py line 361). -/
def scope2Pct (rows : List ComputedRow) : ℚ :=
  if 0 < total_emission rows then scope2 rows / total_emission rows * 100
  else 0

/-- One bucket of `calc_df.groupby('温室气体类型')['排放量(tCO2e)'].sum()`
(app.py line 384). -/
def ghgSum (rows : List ComputedRow) (g : String) : ℚ :=
  fiberSum rows (fun r => r.ghg_type) g

/-- The in-memory share of one gas type in the total, guarded at zero
as everywhere in the app. -/
def ghgPct (rows : List ComputedRow) (g : String) : ℚ :=
  if 0 < total_emission rows then ghgSum rows g / total_emission rows * 100
  else 0

/-- Strict lexicographic comparison of character lists by code point,
the order Python uses on `str` (and hence the order pandas sorts
group keys by). -/
def listLt : List Char → List Char → Bool
  | [], [] => false
  | [], _ :: _ => true
  | _ :: _, [] => false
  | a :: as, b :: bs =>
    if a.toNat < b.toNat then true
    else if b.toNat < a.toNat then false
    else listLt as bs

/-- Strict string comparison by code point (Python `a < b`). -/
def strLt (a b : String) : Bool := listLt a.toList b.toList

/-- Non-strict string comparison by code point (Python `a <= b`). -/
def strLe (a b : String) : Bool := !(strLt b a)

/-- Ascending key sort, modelling the `sort=True` default of pandas
`groupby`, which returns its groups with keys sorted ascending. -/
def sortKeysAsc (l : List String) : List String :=
  List.insertionSort (fun a b => strLe a b = true) l

/-- `DataFrame.sort_values(column, ascending=False)` on a one-column
summary, modelled as a stable descending sort on the summed value
(observed numpy behaviour on these small summary frames). -/
def sortPairsDesc (l : List (String × ℚ)) : List (String × ℚ) :=
  List.insertionSort (fun a b => b.2 ≤ a.2) l

/-- `calc_df.groupby(col)['排放量(tCO2e)'].sum().reset_index()`
(app.py lines 384 and 411): one (key, summed tonnes) pair per distinct
value of the grouped column, keys sorted ascending by pandas. -/
def groupbySum (rows : List ComputedRow) (f : ComputedRow → String) :
    List (String × ℚ) :=
  (sortKeysAsc ((rows.map f).dedup)).map (fun k => (k, fiberSum rows f k))

/-- The summary as presented: grouped, then
`.sort_values('排放量(tCO2e)', ascending=False)`
(app.py lines 384-385 and 411-412). -/
def presentSummary (rows : List ComputedRow) (f : ComputedRow → String) :
    List (String × ℚ) :=
  sortPairsDesc (groupbySum rows f)

/-- The distinct keys of a column in first-seen (input) order; this is
what the claim's "ties broken by first-seen order" refers to. -/
def firstSeenKeys : List String → List String
  | [] => []
  | x :: xs => x :: firstSeenKeys (xs.filter (fun y => y != x))
termination_by l => l.length
decreasing_by
  simp only [List.length_cons]
  exact Nat.lt_succ_of_le (List.length_filter_le _ _)

/-- Detail-sheet column L, the formula `=E{r}*H{r}` evaluated by a
spreadsheet engine: column E holds the row's activity quantity and
column H its factor (app.py lines 459, 462, 468). -/
def wbRowKg (r : ComputedRow) : ℚ := r.quantity * r.factor

/-- Detail-sheet column M, the formula `=L{r}/1000`
(app.py line 472). -/
def wbRowTonnes (r : ComputedRow) : ℚ := wbRowKg r / 1000

/-- Summary-sheet cell B4, the formula
`=SUMIF(详细计算!$A$2:$A${n},"*直接*",详细计算!$M$2:$M${n})`
(app.py line 513): SUMIF with a `*…*` criterion sums column M over
the rows whose column A (the category) contains the token. -/
def wbB4 (rows : List ComputedRow) : ℚ :=
  ((rows.filter (fun r => strContains r.category "直接")).map wbRowTonnes).sum

/-- Summary-sheet cell B5, the same SUMIF with criterion `"*间接*"`
(app.py line 520). -/
def wbB5 (rows : List ComputedRow) : ℚ :=
  ((rows.filter (fun r => strContains r.category "间接")).map wbRowTonnes).sum

/-- Summary-sheet cell B6, the formula `=B4+B5` (app.py line 528). -/
def wbB6 (rows : List ComputedRow) : ℚ := wbB4 rows + wbB5 rows

/-- Summary-sheet cell C4, the formula `=IF(B6>0,B4/B6*100,0)`
(app.py line 515). -/
def wbC4 (rows : List ComputedRow) : ℚ :=
  if 0 < wbB6 rows then wbB4 rows / wbB6 rows * 100 else 0

/-- Summary-sheet cell C5, the formula `=IF(B6>0,B5/B6*100,0)`
(app.py line 522). -/
def wbC5 (rows : List ComputedRow) : ℚ :=
  if 0 < wbB6 rows then wbB5 rows / wbB6 rows * 100 else 0

/-- Gas-analysis sheet column B for one gas type, the formula
`=SUMIF(详细计算!$J$2:$J${n},"{ghg}",详细计算!$M$2:$M${n})`
(app.py line 558): an exact-match SUMIF on the gas-type column J. -/
def wbGhgB (rows : List ComputedRow) (g : String) : ℚ :=
  ((rows.filter (fun r => decide (r.ghg_type = g))).map wbRowTonnes).sum

/-- Gas-analysis sheet column C, the formula
`=IF(排放汇总!$B$6>0,B{i}/排放汇总!$B$6*100,0)` (app.py line 560). -/
def wbGhgC (rows : List ComputedRow) (g : String) : ℚ :=
  if 0 < wbB6 rows then wbGhgB rows g / wbB6 rows * 100 else 0

/-- The six required upload columns (app.py line 156). -/
def required_cols : List String :=
  ["类别", "子类别", "排放源", "设施/过程", "活动数据", "计量单位"]

/-- An uploaded spreadsheet before validation: its column names plus
its raw cell grid (opaque to the validation logic). -/
structure UploadTable where
  cols : List String
  cells : List (List String)
deriving DecidableEq, Repr

/-- The upload step (app.py lines 153-162): the column check
`all(col in df.columns for col in required_cols)`.  On success the
table becomes the stored upload state and the matching step is
offered; on failure only an error is shown, the previous stored state
is kept and no matching is offered.  The returned Bool is "matching
offered". -/
def uploadStep (prev : Option UploadTable) (t : UploadTable) :
    Option UploadTable × Bool :=
  if ∀ c ∈ required_cols, c ∈ t.cols then (some t, true) else (prev, false)

/-- `len(matched_df[matched_df['匹配状态'] == '✅ 已匹配'])`
(app.py line 251). -/
def matchedCount (t : List MatchedRow) : Nat :=
  (t.filter (fun r => decide (r.status = "✅ 已匹配"))).length

/-- The displayed match-rate metric `matched/total*100`
(app.py line 253).  Python raises ZeroDivisionError when
`total = len(matched_df)` is zero; the raised error is modelled as
`none`. -/
def matchRateMetric (t : List MatchedRow) : Option ℚ :=
  if t.length = 0 then none
  else some ((matchedCount t : ℚ) / (t.length : ℚ) * 100)

/-- The order in which a numeric summary is presented after the
key-sorted groupby and the stable descending value sort: strictly
descending tonnes, with equal-tonne buckets in strictly ascending
(code-point) key order. -/
def Rdesc (a b : String × ℚ) : Prop :=
  b.2 < a.2 ∨ (a.2 = b.2 ∧ strLt a.1 b.1 = true)

/-- The template's natural-gas row (app.py lines 115-120, first row). -/
def c7row : Row :=
  { category := "范围一：直接温室气体排放", subcategory := "1.1 固定燃烧",
    source := "天然气", facility := "燃气锅炉", quantity := 1239138,
    unit := "m³" }

/-- The template's natural-gas row after a successful match, used as
a concrete evaluation input. -/
def mNatGas : MatchedRow :=
  { category := "范围一：直接温室气体排放", subcategory := "1.1 固定燃烧",
    source := "天然气", facility := "燃气锅炉", quantity := 1239138,
    unit := "m³", suggested := "固定燃烧-天然气", factor := 2.1622,
    factorUnit := "kgCO2/m3", ghg_type := "CO2", status := "✅ 已匹配",
    provenance := "因子库" }

/-- The template's purchased-electricity row after a successful
match. -/
def mElec : MatchedRow :=
  { category := "范围二：间接温室气体排放", subcategory := "2.1 外购电力",
    source := "外购市政电", facility := "用电", quantity := 1500000,
    unit := "kWh", suggested := "外购电力-全国平均", factor := 0.5703,
    factorUnit := "kgCO2/kWh", ghg_type := "CO2", status := "✅ 已匹配",
    provenance := "因子库" }

/-- A two-row confirmed table with the template's category labels. -/
def exMs : List MatchedRow := [mNatGas, mElec]

/-- A matched row whose category contains neither 直接 nor 间接, as a
user may enter after editing the uploaded table. -/
def badM : MatchedRow :=
  { category := "其他类别", subcategory := "5.1 其他", source := "柴油发电机",
    facility := "备用电源", quantity := 1000, unit := "kg", suggested := "",
    factor := 1, factorUnit := "kgCO2/kg", ghg_type := "CO2",
    status := "✏️ 手动", provenance := "手动修改" }

/-- A CO2 process-emission row contributing exactly one tonne. -/
def c9mCO2 : MatchedRow :=
  { category := "范围一：直接温室气体排放", subcategory := "1.3 工艺排放",
    source := "二氧化碳", facility := "工艺", quantity := 1000, unit := "kg",
    suggested := "工艺排放-二氧化碳", factor := 1, factorUnit := "kgCO2/kg",
    ghg_type := "CO2", status := "✅ 已匹配", provenance := "因子库" }

/-- A CH4 fugitive-emission row also contributing exactly one tonne,
appearing after the CO2 row in the input. -/
def c9mCH4 : MatchedRow :=
  { category := "范围一：直接温室气体排放", subcategory := "1.4 无组织排放",
    source := "甲烷", facility := "化粪池", quantity := 1000, unit := "kg",
    suggested := "无组织排放-甲烷(化粪池)", factor := 1,
    factorUnit := "kgCO2e/kg", ghg_type := "CH4", status := "✅ 已匹配",
    provenance := "因子库" }

/-- The computed table of the two equal-tonne rows: CO2 first-seen,
CH4 second. -/
def c9rows : List ComputedRow := calcAll [c9mCO2, c9mCH4]

/-- A user edit of the natural-gas row changing the factor to 2.5. -/
def editOver : MatchedRow := { mNatGas with factor := 2.5 }

/-- An upload with all six required columns. -/
def tGood : UploadTable :=
  { cols := ["类别", "子类别", "排放源", "设施/过程", "活动数据", "计量单位"],
    cells := [] }

/-- An upload missing most required columns. -/
def tBad : UploadTable := { cols := ["类别", "排放源"], cells := [] }

/-- The purchased-electricity activity row of the template before
matching. -/
def rowElec : Row :=
  { category := "范围二：间接温室气体排放", subcategory := "2.1 外购电力",
    source := "外购市政电", facility := "用电", quantity := 1500000,
    unit := "kWh" }

/-- An activity row whose subcategory carries none of the six rule
codes. -/
def rowUnknown : Row :=
  { category := "其他", subcategory := "特殊工序", source := "生物质",
    facility := "锅炉", quantity := 10, unit := "kg" }

/-! ### Helper lemmas -/

theorem sum_map_filter_split {α : Type} (l : List α) (p : α → Bool) (g : α → ℚ) :
    ((l.filter p).map g).sum + ((l.filter (fun a => !(p a))).map g).sum
      = (l.map g).sum := by
  induction l with
  | nil => simp
  | cons a l ih =>
    cases h : p a with
    | true =>
      simp [List.filter_cons, h]
      rw [← ih]
      ring
    | false =>
      simp [List.filter_cons, h]
      rw [← ih]
      ring

theorem sum_over_partition {α β : Type} [DecidableEq β] :
    ∀ (keys : List β) (l : List α) (f : α → β) (g : α → ℚ),
      keys.Nodup → (∀ a ∈ l, f a ∈ keys) →
      (keys.map (fun k => ((l.filter (fun a => decide (f a = k))).map g).sum)).sum
        = (l.map g).sum := by
  intro keys
  induction keys with
  | nil =>
    intro l f g _ hcov
    cases l with
    | nil => simp
    | cons a l => exact absurd (hcov a (by simp)) (by simp)
  | cons k ks ih =>
    intro l f g hnd hcov
    have hne : ∀ k' ∈ ks, k ≠ k' := (List.pairwise_cons.mp hnd).1
    have hfib : ∀ k' ∈ ks,
        (l.filter (fun a => decide (f a = k'))) =
        ((l.filter (fun a => !(decide (f a = k)))).filter
          (fun a => decide (f a = k'))) := by
      intro k' hk'
      rw [List.filter_filter]
      apply List.filter_congr
      intro a _
      by_cases hfa : f a = k'
      · have hak : ¬ (f a = k) := fun h => hne k' hk' (h.symm.trans hfa)
        simp [hfa, hak]
        exact fun hh => hne k' hk' hh.symm
      · simp [hfa]
    have hmap :
        (ks.map (fun k' => ((l.filter (fun a => decide (f a = k'))).map g).sum)).sum
          = (ks.map (fun k' =>
              (((l.filter (fun a => !(decide (f a = k)))).filter
                (fun a => decide (f a = k'))).map g).sum)).sum := by
      congr 1
      apply List.map_congr_left
      intro k' hk'
      rw [hfib k' hk']
    have hcov' : ∀ a ∈ l.filter (fun a => !(decide (f a = k))), f a ∈ ks := by
      intro a ha
      have hmem := List.mem_of_mem_filter ha
      have hda : ¬ (f a = k) := by
        have hb := List.of_mem_filter ha
        simpa using hb
      rcases List.mem_cons.mp (hcov a hmem) with h | h
      · exact absurd h hda
      · exact h
    simp only [List.map_cons, List.sum_cons]
    rw [hmap, ih _ f g (List.pairwise_cons.mp hnd).2 hcov']
    exact sum_map_filter_split l (fun a => decide (f a = k)) g

theorem groupTotal_eq (rows : List ComputedRow) (f : ComputedRow → String) :
    groupTotal rows f = total_emission rows := by
  unfold groupTotal total_emission fiberSum
  exact sum_over_partition _ rows f _ (List.nodup_dedup _)
    (fun r hr => List.mem_dedup.mpr (List.mem_map_of_mem f hr))

theorem computeRow_scope_spec (m : MatchedRow) :
    ((computeRow m).scope = "范围一" ↔ strContains m.category "直接" = true)
    ∧ ((computeRow m).scope = "范围二" ↔ strContains m.category "直接" = false) := by
  have hs : ("范围一" : String) ≠ "范围二" := by decide
  unfold computeRow
  by_cases h : strContains m.category "直接" = true
  · simp [h, hs]
  · simp only [Bool.not_eq_true] at h
    simp [h, hs.symm]

theorem mem_calcAll (ms : List MatchedRow) (r : ComputedRow) (hr : r ∈ calcAll ms) :
    r.emissionKg = r.quantity * r.factor ∧
    r.emissionTonnes = r.quantity * r.factor / 1000 ∧
    (r.scope = "范围一" ↔ strContains r.category "直接" = true) ∧
    (r.scope = "范围二" ↔ strContains r.category "直接" = false) := by
  rcases List.mem_map.mp hr with ⟨m, hm, rfl⟩
  exact ⟨rfl, rfl, (computeRow_scope_spec m).1, (computeRow_scope_spec m).2⟩

theorem listLt_irrefl : ∀ l : List Char, listLt l l = false := by
  intro l
  induction l with
  | nil => rfl
  | cons a as ih => simp [listLt, ih]

theorem listLt_asymm : ∀ x y : List Char, listLt x y = true → listLt y x = false := by
  intro x
  induction x with
  | nil =>
    intro y h
    cases y with
    | nil => simp [listLt] at h
    | cons b bs => rfl
  | cons a as ih =>
    intro y h
    cases y with
    | nil => simp [listLt] at h
    | cons b bs =>
      simp only [listLt] at h ⊢
      by_cases h1 : a.toNat < b.toNat
      · rw [if_neg (Nat.lt_asymm h1), if_pos h1]
      · by_cases h2 : b.toNat < a.toNat
        · rw [if_neg h1, if_pos h2] at h
          exact absurd h (by simp)
        · rw [if_neg h1, if_neg h2] at h
          rw [if_neg h2, if_neg h1]
          exact ih bs h

theorem listLt_false_trans :
    ∀ x y z : List Char, listLt x y = false → listLt y z = false →
      listLt x z = false := by
  intro x
  induction x with
  | nil =>
    intro y z hxy hyz
    cases y with
    | cons b bs => simp [listLt] at hxy
    | nil =>
      cases z with
      | cons c cs => simp [listLt] at hyz
      | nil => rfl
  | cons a as ih =>
    intro y z hxy hyz
    cases y with
    | nil =>
      cases z with
      | cons c cs => simp [listLt] at hyz
      | nil => rfl
    | cons b bs =>
      cases z with
      | nil => rfl
      | cons c cs =>
        simp only [listLt] at hxy hyz ⊢
        by_cases hab : a.toNat < b.toNat
        · rw [if_pos hab] at hxy
          exact absurd hxy (by simp)
        · by_cases hbc : b.toNat < c.toNat
          · rw [if_pos hbc] at hyz
            exact absurd hyz (by simp)
          · by_cases hba : b.toNat < a.toNat
            · have hca : c.toNat < a.toNat := by omega
              rw [if_neg (by omega), if_pos hca]
            · have hab' : a.toNat = b.toNat := by omega
              rw [if_neg hab, if_neg hba] at hxy
              by_cases hcb : c.toNat < b.toNat
              · have hca : c.toNat < a.toNat := by omega
                rw [if_neg (by omega), if_pos hca]
              · have hbc' : b.toNat = c.toNat := by omega
                rw [if_neg hbc, if_neg hcb] at hyz
                rw [if_neg (by omega), if_neg (by omega)]
                exact ih bs cs hxy hyz

theorem listLt_eq_of_not_lt :
    ∀ x y : List Char, listLt x y = false → listLt y x = false → x = y := by
  intro x
  induction x with
  | nil =>
    intro y h1 h2
    cases y with
    | nil => rfl
    | cons b bs => simp [listLt] at h1
  | cons a as ih =>
    intro y h1 h2
    cases y with
    | nil => simp [listLt] at h2
    | cons b bs =>
      simp only [listLt] at h1 h2
      by_cases hab : a.toNat < b.toNat
      · rw [if_pos hab] at h1
        exact absurd h1 (by simp)
      · by_cases hba : b.toNat < a.toNat
        · rw [if_pos hba] at h2
          exact absurd h2 (by simp)
        · have hn : a.toNat = b.toNat := by omega
          have hchar : a = b := Char.ext (UInt32.toNat.inj hn)
          rw [if_neg hab, if_neg hba] at h1
          rw [if_neg hba, if_neg hab] at h2
          rw [hchar, ih bs h1 h2]

theorem strLt_connex (a b : String) (hne : a ≠ b) :
    strLt a b = true ∨ strLt b a = true := by
  unfold strLt
  cases h1 : listLt a.toList b.toList with
  | true => exact Or.inl rfl
  | false =>
    cases h2 : listLt b.toList a.toList with
    | true => exact Or.inr rfl
    | false =>
      exact absurd (String.ext (listLt_eq_of_not_lt _ _ h1 h2)) hne

theorem strLe_total (a b : String) : strLe a b = true ∨ strLe b a = true := by
  cases h : listLt b.toList a.toList with
  | false =>
    left
    unfold strLe strLt
    rw [h]
    rfl
  | true =>
    right
    unfold strLe strLt
    rw [listLt_asymm _ _ h]
    rfl

theorem strLe_trans_of (a b c : String) (hab : strLe a b = true)
    (hbc : strLe b c = true) : strLe a c = true := by
  simp only [strLe, strLt, Bool.not_eq_eq_eq_not, Bool.not_true] at hab hbc ⊢
  exact listLt_false_trans c.toList b.toList a.toList hbc hab

theorem pairwise_and {α : Type} {R S : α → α → Prop} :
    ∀ {l : List α}, l.Pairwise R → l.Pairwise S →
      l.Pairwise (fun a b => R a b ∧ S a b) := by
  intro l hR hS
  induction l with
  | nil => exact List.Pairwise.nil
  | cons a l ih =>
    rcases List.pairwise_cons.mp hR with ⟨hRa, hRl⟩
    rcases List.pairwise_cons.mp hS with ⟨hSa, hSl⟩
    exact List.pairwise_cons.mpr ⟨fun b hb => ⟨hRa b hb, hSa b hb⟩, ih hRl hSl⟩

theorem sortKeysAsc_pairwise_lt (l : List String) (hnd : l.Nodup) :
    (sortKeysAsc l).Pairwise (fun a b => strLt a b = true) := by
  haveI : IsTotal String (fun a b => strLe a b = true) := ⟨strLe_total⟩
  haveI : IsTrans String (fun a b => strLe a b = true) :=
    ⟨fun a b c hab hbc => strLe_trans_of a b c hab hbc⟩
  have hsorted : (sortKeysAsc l).Pairwise (fun a b => strLe a b = true) :=
    List.sorted_insertionSort _ l
  have hnd' : (sortKeysAsc l).Nodup :=
    ((List.perm_insertionSort _ l).nodup_iff).mpr hnd
  refine (pairwise_and hsorted hnd').imp ?_
  intro a b hab
  rcases strLt_connex a b hab.2 with h | h
  · exact h
  · exfalso
    have : strLe a b = false := by simp [strLe, h]
    rw [this] at hab
    exact absurd hab.1 (by simp)

theorem orderedInsert_pairwise (x : String × ℚ) :
    ∀ s : List (String × ℚ), s.Pairwise Rdesc →
      (∀ y ∈ s, strLt x.1 y.1 = true) →
      (List.orderedInsert (fun a b => b.2 ≤ a.2) x s).Pairwise Rdesc := by
  intro s
  induction s with
  | nil =>
    intro _ _
    simp [List.orderedInsert]
  | cons y ys ih =>
    intro hs hk
    rw [List.orderedInsert]
    by_cases h : y.2 ≤ x.2
    · rw [if_pos h]
      refine List.pairwise_cons.mpr ⟨?_, hs⟩
      intro z hz
      have hzx : z.2 ≤ x.2 := by
        rcases List.mem_cons.mp hz with rfl | hz'
        · exact h
        · rcases List.rel_of_pairwise_cons hs hz' with h' | h'
          · exact le_trans (le_of_lt h') h
          · exact le_trans (le_of_eq h'.1.symm) h
      rcases lt_or_eq_of_le hzx with h' | h'
      · exact Or.inl h'
      · exact Or.inr ⟨h'.symm, hk z hz⟩
    · rw [if_neg h]
      refine List.pairwise_cons.mpr ⟨?_, ?_⟩
      · intro z hz
        rcases (List.mem_orderedInsert _).mp hz with rfl | hz'
        · exact Or.inl (not_le.mp h)
        · exact List.rel_of_pairwise_cons hs hz'
      · exact ih (List.pairwise_cons.mp hs).2
          (fun z hz => hk z (List.mem_cons_of_mem _ hz))

theorem sortPairsDesc_pairwise :
    ∀ l : List (String × ℚ), l.Pairwise (fun a b => strLt a.1 b.1 = true) →
      (sortPairsDesc l).Pairwise Rdesc := by
  intro l
  induction l with
  | nil =>
    intro _
    simp [sortPairsDesc, List.insertionSort]
  | cons x xs ih =>
    intro hl
    rw [sortPairsDesc, List.insertionSort]
    apply orderedInsert_pairwise
    · exact ih (List.pairwise_cons.mp hl).2
    · intro y hy
      exact (List.pairwise_cons.mp hl).1 y
        ((List.perm_insertionSort _ xs).mem_iff.mp hy)

theorem presentSummary_pairwise (rows : List ComputedRow)
    (f : ComputedRow → String) :
    (presentSummary rows f).Pairwise Rdesc := by
  apply sortPairsDesc_pairwise
  unfold groupbySum
  rw [List.pairwise_map]
  exact sortKeysAsc_pairwise_lt _ (List.nodup_dedup _)

/-! ### Claim theorems -/

/-- Claim C2: for every row passed to the calculation engine,
`emissionKg` is the activity quantity times the resolved factor,
`emissionTonnes` is `emissionKg / 1000` with no other conversion, and
the scope is 范围一 (ScopeOne) exactly when the category contains 直接,
otherwise 范围二 (ScopeTwo). -/
theorem claim2_calculation_engine (m : MatchedRow) :
    (computeRow m).emissionKg = m.quantity * m.factor
    ∧ (computeRow m).emissionTonnes = (computeRow m).emissionKg / 1000
    ∧ ((computeRow m).scope = "范围一" ↔ strContains m.category "直接" = true)
    ∧ ((computeRow m).scope = "范围二" ↔ strContains m.category "直接" = false) :=
  ⟨rfl, rfl, (computeRow_scope_spec m).1, (computeRow_scope_spec m).2⟩

/-- Claim C2 witness: the calculation engine evaluated on a concrete
matched row. -/
theorem claim2_calculation_engine_witness :
    (computeRow mNatGas).scope = "范围一"
    ∧ (computeRow mNatGas).emissionKg = 1239138 * 2.1622 := by
  constructor
  · exact (claim2_calculation_engine mNatGas).2.2.1.mpr (by decide)
  · have h := (claim2_calculation_engine mNatGas).1
    rw [h]
    norm_num [mNatGas]

/-- Claim C6: for every set of computed rows the per-scope buckets,
the per-gas-type buckets and the per-subcategory buckets each sum to
the total tonnes — exactly in this rational model, hence in particular
within the claimed 1e-9 tolerance. -/
theorem claim6_aggregation_partition_law (rows : List ComputedRow) :
    groupTotal rows (fun r => r.scope) = total_emission rows
    ∧ groupTotal rows (fun r => r.ghg_type) = total_emission rows
    ∧ groupTotal rows (fun r => r.subcategory) = total_emission rows
    ∧ |groupTotal rows (fun r => r.scope) - total_emission rows| ≤ 1 / 1000000000
    ∧ |groupTotal rows (fun r => r.ghg_type) - total_emission rows| ≤ 1 / 1000000000
    ∧ |groupTotal rows (fun r => r.subcategory) - total_emission rows|
        ≤ 1 / 1000000000 := by
  have h1 := groupTotal_eq rows (fun r => r.scope)
  have h2 := groupTotal_eq rows (fun r => r.ghg_type)
  have h3 := groupTotal_eq rows (fun r => r.subcategory)
  refine ⟨h1, h2, h3, ?_, ?_, ?_⟩
  · rw [h1, sub_self, abs_zero]
    norm_num
  · rw [h2, sub_self, abs_zero]
    norm_num
  · rw [h3, sub_self, abs_zero]
    norm_num

/-- Claim C4: after a matcher run every row is in exactly one of the
two states — a library hit (status 已匹配, provenance 因子库, with the
library's factor, unit and gas type copied in) or a miss (status
未匹配, provenance 待补充, factor 0, unit 待补充, gas type CO2). -/
theorem claim4_match_result_invariant (lib : List (String × FactorInfo)) (r : Row) :
    (((matchRow lib r).status = "✅ 已匹配"
      ∧ (matchRow lib r).provenance = "因子库"
      ∧ ∃ info, List.lookup (matchRow lib r).suggested lib = some info
          ∧ (matchRow lib r).factor = info.factor
          ∧ (matchRow lib r).factorUnit = info.unit
          ∧ (matchRow lib r).ghg_type = info.ghg_type)
    ∨ ((matchRow lib r).status = "❌ 未匹配"
      ∧ (matchRow lib r).provenance = "待补充"
      ∧ (matchRow lib r).factor = 0
      ∧ (matchRow lib r).factorUnit = "待补充"
      ∧ (matchRow lib r).ghg_type = "CO2"))
    ∧ ¬ ((matchRow lib r).status = "✅ 已匹配"
          ∧ (matchRow lib r).status = "❌ 未匹配") := by
  constructor
  · by_cases hk : deriveKey r.subcategory r.source = ""
    · right
      simp [matchRow, hk]
    · cases hl : List.lookup (deriveKey r.subcategory r.source) lib with
      | none =>
        right
        simp [matchRow, hk, hl]
      | some info =>
        left
        simp [matchRow, hk, hl]
  · rintro ⟨ha, hb⟩
    rw [ha] at hb
    exact absurd hb (by decide)

/-- Claim C5: in a reconciliation pass, a factor value differing from
the matcher's latest assignment forces provenance 手动修改 and status
✏️ 手动 (independently of the library, which the reconciler never
consults); otherwise a positive factor on a row not already manually
overridden is normalized to status ✅ 已匹配. -/
theorem claim5_override_reconciler (orig edited : MatchedRow) :
    (edited.factor ≠ orig.factor →
      (reconcileRow orig edited).provenance = "手动修改"
      ∧ (reconcileRow orig edited).status = "✏️ 手动")
    ∧ (edited.factor = orig.factor → 0 < edited.factor →
        edited.provenance ≠ "手动修改" →
        (reconcileRow orig edited).status = "✅ 已匹配"
        ∧ (reconcileRow orig edited).provenance = edited.provenance) := by
  constructor
  · intro h
    unfold reconcileRow
    rw [if_pos h]
    exact ⟨rfl, rfl⟩
  · intro heq hpos hprov
    unfold reconcileRow
    rw [if_neg (fun hc => hc heq), if_pos hpos, if_pos hprov]
    exact ⟨rfl, rfl⟩

/-- Claim C8: the six required upload columns are validated before
matching; a missing column rejects the upload wholesale (previous
state kept, no matching offered) and a complete header is accepted. -/
theorem claim8_upload_validation (prev : Option UploadTable) (t : UploadTable) :
    required_cols.length = 6
    ∧ ((∃ c ∈ required_cols, c ∉ t.cols) → uploadStep prev t = (prev, false))
    ∧ ((∀ c ∈ required_cols, c ∈ t.cols) → uploadStep prev t = (some t, true)) := by
  refine ⟨rfl, ?_, ?_⟩
  · rintro ⟨c, hc, hnc⟩
    unfold uploadStep
    rw [if_neg (fun hall => hnc (hall c hc))]
  · intro hall
    unfold uploadStep
    rw [if_pos hall]

/-- Claim C10: the match-rate metric divides by the row count without
a guard, so a zero-row table makes the matcher step fail with a
division-by-zero error (modelled as `none`); every non-empty table
yields the well-defined value matched/total*100. -/
theorem claim10_match_rate_division (lib : List (String × FactorInfo)) :
    matchRateMetric (matchAll lib []) = none
    ∧ (∀ rows : List Row, rows ≠ [] →
        matchRateMetric (matchAll lib rows)
          = some ((matchedCount (matchAll lib rows) : ℚ)
              / ((matchAll lib rows).length : ℚ) * 100)) := by
  constructor
  · rfl
  · intro rows hne
    have hlen : ¬ ((matchAll lib rows).length = 0) := by
      simp [matchAll]
      exact hne
    unfold matchRateMetric
    rw [if_neg hlen]

theorem append_left_ne_empty (s t : String) (h : s.data ≠ []) : s ++ t ≠ "" := by
  intro hc
  apply h
  have hd : s.data ++ t.data = [] := by
    rw [← String.data_append, hc]
  exact (List.append_eq_nil.mp hd).1

theorem matchRow_suggested (lib : List (String × FactorInfo)) (r : Row)
    (hkey : deriveKey r.subcategory r.source ≠ "") :
    (matchRow lib r).suggested = deriveKey r.subcategory r.source := by
  cases hl : List.lookup (deriveKey r.subcategory r.source) lib with
  | none => simp [matchRow, hkey, hl]
  | some info => simp [matchRow, hkey, hl]

/-- Claim C3: the matcher derives the candidate key by locating one of
the six rule codes in the subcategory (first match wins, in source
order), forms `<pathway>-<source>`, collapses purchased electricity to
the national grid average whenever the source mentions 电, and falls
back to the 未识别 sentinel with an unmatched status when no code is
found. -/
theorem claim3_matcher_key_derivation (lib : List (String × FactorInfo)) (r : Row) :
    (strContains r.subcategory "1.1" = true →
      (matchRow lib r).suggested = "固定燃烧-" ++ r.source)
    ∧ (strContains r.subcategory "1.1" = false →
       strContains r.subcategory "1.2" = true →
      (matchRow lib r).suggested = "移动燃烧-" ++ r.source)
    ∧ (strContains r.subcategory "1.1" = false →
       strContains r.subcategory "1.2" = false →
       strContains r.subcategory "1.3" = true →
      (matchRow lib r).suggested = "工艺排放-" ++ r.source)
    ∧ (strContains r.subcategory "1.1" = false →
       strContains r.subcategory "1.2" = false →
       strContains r.subcategory "1.3" = false →
       strContains r.subcategory "1.4" = true →
      (matchRow lib r).suggested = "无组织排放-" ++ r.source)
    ∧ (strContains r.subcategory "1.1" = false →
       strContains r.subcategory "1.2" = false →
       strContains r.subcategory "1.3" = false →
       strContains r.subcategory "1.4" = false →
       strContains r.subcategory "2.1" = true →
       strContains r.source "电" = true →
      (matchRow lib r).suggested = "外购电力-全国平均")
    ∧ (strContains r.subcategory "1.1" = false →
       strContains r.subcategory "1.2" = false →
       strContains r.subcategory "1.3" = false →
       strContains r.subcategory "1.4" = false →
       strContains r.subcategory "2.1" = true →
       strContains r.source "电" = false →
      (matchRow lib r).suggested = "外购电力-" ++ r.source)
    ∧ (strContains r.subcategory "1.1" = false →
       strContains r.subcategory "1.2" = false →
       strContains r.subcategory "1.3" = false →
       strContains r.subcategory "1.4" = false →
       strContains r.subcategory "2.1" = false →
       strContains r.subcategory "2.2" = true →
      (matchRow lib r).suggested = "外购热力-" ++ r.source)
    ∧ (strContains r.subcategory "1.1" = false →
       strContains r.subcategory "1.2" = false →
       strContains r.subcategory "1.3" = false →
       strContains r.subcategory "1.4" = false →
       strContains r.subcategory "2.1" = false →
       strContains r.subcategory "2.2" = false →
      (matchRow lib r).suggested = "未识别"
      ∧ (matchRow lib r).status = "❌ 未匹配") := by
  refine ⟨?_, ?_, ?_, ?_, ?_, ?_, ?_, ?_⟩
  · intro h1
    have hd : deriveKey r.subcategory r.source = "固定燃烧-" ++ r.source := by
      simp [deriveKey, h1]
    rw [matchRow_suggested lib r
      (by rw [hd]; exact append_left_ne_empty _ _ (by decide)), hd]
  · intro h1 h2
    have hd : deriveKey r.subcategory r.source = "移动燃烧-" ++ r.source := by
      simp [deriveKey, h1, h2]
    rw [matchRow_suggested lib r
      (by rw [hd]; exact append_left_ne_empty _ _ (by decide)), hd]
  · intro h1 h2 h3
    have hd : deriveKey r.subcategory r.source = "工艺排放-" ++ r.source := by
      simp [deriveKey, h1, h2, h3]
    rw [matchRow_suggested lib r
      (by rw [hd]; exact append_left_ne_empty _ _ (by decide)), hd]
  · intro h1 h2 h3 h4
    have hd : deriveKey r.subcategory r.source = "无组织排放-" ++ r.source := by
      simp [deriveKey, h1, h2, h3, h4]
    rw [matchRow_suggested lib r
      (by rw [hd]; exact append_left_ne_empty _ _ (by decide)), hd]
  · intro h1 h2 h3 h4 h5 he
    have hd : deriveKey r.subcategory r.source = "外购电力-全国平均" := by
      simp [deriveKey, h1, h2, h3, h4, h5, he]
    rw [matchRow_suggested lib r (by rw [hd]; decide), hd]
  · intro h1 h2 h3 h4 h5 he
    have hd : deriveKey r.subcategory r.source = "外购电力-" ++ r.source := by
      simp [deriveKey, h1, h2, h3, h4, h5, he]
    rw [matchRow_suggested lib r
      (by rw [hd]; exact append_left_ne_empty _ _ (by decide)), hd]
  · intro h1 h2 h3 h4 h5 h6
    have hd : deriveKey r.subcategory r.source = "外购热力-" ++ r.source := by
      simp [deriveKey, h1, h2, h3, h4, h5, h6]
    rw [matchRow_suggested lib r
      (by rw [hd]; exact append_left_ne_empty _ _ (by decide)), hd]
  · intro h1 h2 h3 h4 h5 h6
    have hd : deriveKey r.subcategory r.source = "" := by
      simp [deriveKey, h1, h2, h3, h4, h5, h6]
    constructor
    · simp [matchRow, hd]
    · simp [matchRow, hd]

/-- Claim C3 witness: the purchased-electricity collapse and the
unidentified fallback evaluated on concrete rows against the seeded
library. -/
theorem claim3_matcher_key_derivation_witness :
    strContains rowElec.subcategory "2.1" = true
    ∧ strContains rowElec.source "电" = true
    ∧ (matchRow emission_factors rowElec).suggested = "外购电力-全国平均"
    ∧ (matchRow emission_factors rowUnknown).suggested = "未识别"
    ∧ (matchRow emission_factors rowUnknown).status = "❌ 未匹配" := by
  refine ⟨by decide, by decide, ?_, ?_, ?_⟩
  · exact (claim3_matcher_key_derivation emission_factors rowElec).2.2.2.2.1
      (by decide) (by decide) (by decide) (by decide) (by decide) (by decide)
  · exact ((claim3_matcher_key_derivation emission_factors rowUnknown).2.2.2.2.2.2.2
      (by decide) (by decide) (by decide) (by decide) (by decide) (by decide)).1
  · exact ((claim3_matcher_key_derivation emission_factors rowUnknown).2.2.2.2.2.2.2
      (by decide) (by decide) (by decide) (by decide) (by decide) (by decide)).2

/-- Claim C1 (amended): for a computed table in which every row's
category mentions 间接 exactly when it does not mention 直接 (as the
template's two category labels do), evaluating the exported workbook's
formulas — the per-row `=E*H` and `=L/1000`, the two scope SUMIFs,
`=B4+B5`, the ratio cells and the per-gas SUMIF/ratio cells —
reproduces the in-memory computed and aggregate values exactly, hence
in particular to 4 decimals for kg and 2 decimals for tonnes and
percentages.  Without the category hypothesis the scope-2 SUMIF
(criterion `"*间接*"`) can diverge from the in-memory scope-2 bucket
(criterion: does not contain 直接). -/
theorem claim1_export_formula_equivalence (ms : List MatchedRow)
    (hcat : ∀ m ∈ ms,
      strContains m.category "间接" = !(strContains m.category "直接")) :
    (∀ r ∈ calcAll ms,
      wbRowKg r = r.emissionKg ∧ wbRowTonnes r = r.emissionTonnes)
    ∧ wbB4 (calcAll ms) = scope1 (calcAll ms)
    ∧ wbB5 (calcAll ms) = scope2 (calcAll ms)
    ∧ wbB6 (calcAll ms) = total_emission (calcAll ms)
    ∧ wbC4 (calcAll ms) = scope1Pct (calcAll ms)
    ∧ wbC5 (calcAll ms) = scope2Pct (calcAll ms)
    ∧ (∀ g, wbGhgB (calcAll ms) g = ghgSum (calcAll ms) g
        ∧ wbGhgC (calcAll ms) g = ghgPct (calcAll ms) g) := by
  have hrow : ∀ r ∈ calcAll ms,
      wbRowKg r = r.emissionKg ∧ wbRowTonnes r = r.emissionTonnes := by
    intro r hr
    rcases List.mem_map.mp hr with ⟨m, hm, rfl⟩
    exact ⟨rfl, rfl⟩
  have hton : ∀ p : ComputedRow → Bool,
      (((calcAll ms).filter p).map wbRowTonnes).sum
        = (((calcAll ms).filter p).map (fun r => r.emissionTonnes)).sum := by
    intro p
    congr 1
    apply List.map_congr_left
    intro r hr
    exact (hrow r (List.mem_of_mem_filter hr)).2
  have hf1 : (calcAll ms).filter (fun r => strContains r.category "直接")
      = (calcAll ms).filter (fun r => decide (r.scope = "范围一")) := by
    apply List.filter_congr
    intro r hr
    rcases mem_calcAll ms r hr with ⟨_, _, h1, h2⟩
    cases h : strContains r.category "直接" with
    | true =>
      rw [h1.mpr h]
      decide
    | false =>
      rw [h2.mpr h]
      decide
  have hB4 : wbB4 (calcAll ms) = scope1 (calcAll ms) := by
    unfold wbB4 scope1 fiberSum
    rw [hf1]
    exact hton _
  have hcat' : ∀ r ∈ calcAll ms,
      strContains r.category "间接" = !(strContains r.category "直接") := by
    intro r hr
    rcases List.mem_map.mp hr with ⟨m, hm, rfl⟩
    exact hcat m hm
  have hf2 : (calcAll ms).filter (fun r => strContains r.category "间接")
      = (calcAll ms).filter (fun r => decide (r.scope = "范围二")) := by
    apply List.filter_congr
    intro r hr
    rcases mem_calcAll ms r hr with ⟨_, _, h1, h2⟩
    rw [hcat' r hr]
    cases h : strContains r.category "直接" with
    | true =>
      rw [h1.mpr h]
      decide
    | false =>
      rw [h2.mpr h]
      decide
  have hB5 : wbB5 (calcAll ms) = scope2 (calcAll ms) := by
    unfold wbB5 scope2 fiberSum
    rw [hf2]
    exact hton _
  have hf2n : (calcAll ms).filter (fun r => decide (r.scope = "范围二"))
      = (calcAll ms).filter (fun r => !(decide (r.scope = "范围一"))) := by
    apply List.filter_congr
    intro r hr
    rcases mem_calcAll ms r hr with ⟨_, _, h1, h2⟩
    cases h : strContains r.category "直接" with
    | true =>
      rw [h1.mpr h]
      decide
    | false =>
      rw [h2.mpr h]
      decide
  have hsplit : scope1 (calcAll ms) + scope2 (calcAll ms)
      = total_emission (calcAll ms) := by
    unfold scope1 scope2 fiberSum total_emission
    rw [hf2n]
    exact sum_map_filter_split (calcAll ms)
      (fun r => decide (r.scope = "范围一")) (fun r => r.emissionTonnes)
  have hB6 : wbB6 (calcAll ms) = total_emission (calcAll ms) := by
    unfold wbB6
    rw [hB4, hB5]
    exact hsplit
  have hC4 : wbC4 (calcAll ms) = scope1Pct (calcAll ms) := by
    unfold wbC4 scope1Pct
    rw [hB4, hB6]
  have hC5 : wbC5 (calcAll ms) = scope2Pct (calcAll ms) := by
    unfold wbC5 scope2Pct
    rw [hB5, hB6]
  have hGB : ∀ g, wbGhgB (calcAll ms) g = ghgSum (calcAll ms) g := by
    intro g
    unfold wbGhgB ghgSum fiberSum
    exact hton _
  have hGC : ∀ g, wbGhgC (calcAll ms) g = ghgPct (calcAll ms) g := by
    intro g
    unfold wbGhgC ghgPct
    rw [hB6, hGB g]
  exact ⟨hrow, hB4, hB5, hB6, hC4, hC5, fun g => ⟨hGB g, hGC g⟩⟩

/-- Claim C1 witness: on the two-row template table the category
hypothesis holds and the workbook total equals the in-memory total;
the per-row formula agreement is instantiated on the first row. -/
theorem claim1_export_formula_equivalence_witness :
    (∀ m ∈ exMs,
      strContains m.category "间接" = !(strContains m.category "直接"))
    ∧ wbB6 (calcAll exMs) = total_emission (calcAll exMs)
    ∧ wbRowKg (computeRow mNatGas) = (computeRow mNatGas).emissionKg := by
  have hcat : ∀ m ∈ exMs,
      strContains m.category "间接" = !(strContains m.category "直接") := by
    decide
  refine ⟨hcat, (claim1_export_formula_equivalence exMs hcat).2.2.2.1, ?_⟩
  exact ((claim1_export_formula_equivalence exMs hcat).1 (computeRow mNatGas)
    (List.mem_cons_self _ _)).1

/-- Claim C1 counterexample: a one-row table whose category contains
neither 直接 nor 间接.  The in-memory total is one tonne, but every
summary formula of the workbook evaluates to zero, so the exported
summary does not reproduce the in-memory aggregate even to the claimed
two decimals. -/
theorem claim1_export_formula_cex :
    wbB6 (calcAll [badM]) = 0
    ∧ total_emission (calcAll [badM]) = 1
    ∧ ¬ (|wbB6 (calcAll [badM]) - total_emission (calcAll [badM])|
          ≤ 1 / 200) := by
  have hc1 : strContains "其他类别" "直接" = false := by decide
  have hc2 : strContains "其他类别" "间接" = false := by decide
  have h1 : wbB6 (calcAll [badM]) = 0 := by
    simp [wbB6, wbB4, wbB5, calcAll, computeRow, badM, hc1, hc2]
  have h2 : total_emission (calcAll [badM]) = 1 := by
    simp [total_emission, calcAll, computeRow, badM]
  refine ⟨h1, h2, ?_⟩
  rw [h1, h2, zero_sub, abs_neg, abs_one]
  norm_num

/-- Claim C7 (amended): the template's natural-gas row against the
seeded library resolves the key 固定燃烧-天然气 with factor 2.1622 and
is matched; the calculation engine then yields
emissionKg = 1239138 × 2.1622 = 2679264.1836,
emissionTonnes = 2679.2641836 ≈ 2679.26, and scope 范围一. -/
theorem claim7_scenario_amended :
    (matchRow emission_factors c7row).suggested = "固定燃烧-天然气"
    ∧ (matchRow emission_factors c7row).factor = 2.1622
    ∧ (matchRow emission_factors c7row).status = "✅ 已匹配"
    ∧ (computeRow (matchRow emission_factors c7row)).emissionKg = 2679264.1836
    ∧ (computeRow (matchRow emission_factors c7row)).emissionTonnes
        = 2679.2641836
    ∧ (computeRow (matchRow emission_factors c7row)).scope = "范围一" := by
  have hm : matchRow emission_factors c7row = mNatGas := rfl
  refine ⟨by rw [hm]; rfl, by rw [hm]; rfl, by rw [hm]; rfl, ?_, ?_,
    by rw [hm]; rfl⟩
  · rw [hm]
    show (1239138 : ℚ) * 2.1622 = 2679264.1836
    norm_num
  · rw [hm]
    show (1239138 : ℚ) * 2.1622 / 1000 = 2679.2641836
    norm_num

/-- Claim C7 counterexample: the scenario's stated numbers are wrong
for this input.  The engine produces emissionKg = 2679264.1836 — not a
value of the form 2679009.… — and emissionTonnes exceeds the claimed
≈ 2679.01 by far more than two-decimal rounding allows. -/
theorem claim7_scenario_cex :
    (computeRow (matchRow emission_factors c7row)).emissionKg = 2679264.1836
    ∧ ¬ (2679009 ≤ (computeRow (matchRow emission_factors c7row)).emissionKg
          ∧ (computeRow (matchRow emission_factors c7row)).emissionKg < 2679010)
    ∧ 2679.01 + 1 / 200
        < (computeRow (matchRow emission_factors c7row)).emissionTonnes := by
  have hm : matchRow emission_factors c7row = mNatGas := rfl
  have hkg : (computeRow (matchRow emission_factors c7row)).emissionKg
      = 2679264.1836 := by
    rw [hm]
    show (1239138 : ℚ) * 2.1622 = 2679264.1836
    norm_num
  have hton : (computeRow (matchRow emission_factors c7row)).emissionTonnes
      = 2679.2641836 := by
    rw [hm]
    show (1239138 : ℚ) * 2.1622 / 1000 = 2679.2641836
    norm_num
  refine ⟨hkg, ?_, ?_⟩
  · intro hcontra
    rw [hkg] at hcontra
    rcases hcontra with ⟨_, h2⟩
    norm_num at h2
  · rw [hton]
    norm_num

/-- Claim C9 (amended): each presented aggregation partition (gas type
and subcategory) is ordered by strictly descending tonnes, with
equal-tonne buckets in ascending code-point order of their keys
(pandas `groupby` pre-sorts the group keys and the value sort is
stable) — not in first-seen input order. -/
theorem claim9_presentation_order_amended (rows : List ComputedRow) :
    (presentSummary rows (fun r => r.ghg_type)).Pairwise Rdesc
    ∧ (presentSummary rows (fun r => r.subcategory)).Pairwise Rdesc :=
  ⟨presentSummary_pairwise rows _, presentSummary_pairwise rows _⟩

/-- Claim C9 counterexample: two rows with equal tonnes whose gas
types are first seen in the order CO2, CH4 are presented as CH4, CO2
(the lexicographically sorted group keys), so ties are not broken by
first-seen order. -/
theorem claim9_presentation_order_cex :
    presentSummary c9rows (fun r => r.ghg_type) = [("CH4", 1), ("CO2", 1)]
    ∧ firstSeenKeys (c9rows.map (fun r => r.ghg_type)) = ["CO2", "CH4"]
    ∧ (presentSummary c9rows (fun r => r.ghg_type)).map Prod.fst
        ≠ firstSeenKeys (c9rows.map (fun r => r.ghg_type))
    ∧ ghgSum c9rows "CO2" = ghgSum c9rows "CH4" := by
  have hmap : c9rows.map (fun r => r.ghg_type) = ["CO2", "CH4"] := rfl
  have hkeys : sortKeysAsc ((c9rows.map (fun r => r.ghg_type)).dedup)
      = ["CH4", "CO2"] := by decide
  have hfCO2 : fiberSum c9rows (fun r => r.ghg_type) "CO2" = 1 := by
    simp [fiberSum, c9rows, calcAll, computeRow, c9mCO2, c9mCH4]
  have hfCH4 : fiberSum c9rows (fun r => r.ghg_type) "CH4" = 1 := by
    simp [fiberSum, c9rows, calcAll, computeRow, c9mCO2, c9mCH4]
  have hgroup : groupbySum c9rows (fun r => r.ghg_type)
      = [("CH4", 1), ("CO2", 1)] := by
    unfold groupbySum
    rw [hkeys]
    simp [hfCO2, hfCH4]
  have hpres : presentSummary c9rows (fun r => r.ghg_type)
      = [("CH4", 1), ("CO2", 1)] := by
    unfold presentSummary
    rw [hgroup]
    simp [sortPairsDesc, List.insertionSort, List.orderedInsert]
  have hfs : firstSeenKeys (c9rows.map (fun r => r.ghg_type))
      = ["CO2", "CH4"] := by
    rw [hmap]
    simp [firstSeenKeys]
  refine ⟨hpres, hfs, ?_, ?_⟩
  · rw [hpres, hfs]
    decide
  · unfold ghgSum
    rw [hfCO2, hfCH4]

/-- Claim C5 witness: the reconciler evaluated on the natural-gas row,
once with an edited factor 2.5 ≠ 2.1622 (flagged as manual override)
and once with an unchanged positive factor (normalized to matched). -/
theorem claim5_override_reconciler_witness :
    editOver.factor ≠ mNatGas.factor
    ∧ (reconcileRow mNatGas editOver).provenance = "手动修改"
    ∧ (reconcileRow mNatGas editOver).status = "✏️ 手动"
    ∧ 0 < mNatGas.factor
    ∧ mNatGas.provenance ≠ "手动修改"
    ∧ (reconcileRow mNatGas mNatGas).status = "✅ 已匹配" := by
  have hne : editOver.factor ≠ mNatGas.factor := by
    show (2.5 : ℚ) ≠ 2.1622
    norm_num
  have hpos : (0 : ℚ) < mNatGas.factor := by
    show (0 : ℚ) < 2.1622
    norm_num
  have hprov : mNatGas.provenance ≠ "手动修改" := by decide
  exact ⟨hne, ((claim5_override_reconciler mNatGas editOver).1 hne).1,
    ((claim5_override_reconciler mNatGas editOver).1 hne).2, hpos, hprov,
    ((claim5_override_reconciler mNatGas mNatGas).2 rfl hpos hprov).1⟩

/-- Claim C8 witness: an upload missing 子类别 is rejected with the
previous state kept, while the full template header is accepted. -/
theorem claim8_upload_validation_witness :
    (∃ c ∈ required_cols, c ∉ tBad.cols)
    ∧ uploadStep none tBad = (none, false)
    ∧ (∀ c ∈ required_cols, c ∈ tGood.cols)
    ∧ uploadStep none tGood = (some tGood, true) := by
  have hbad : ∃ c ∈ required_cols, c ∉ tBad.cols := ⟨"子类别", by decide, by decide⟩
  have hgood : ∀ c ∈ required_cols, c ∈ tGood.cols := by decide
  exact ⟨hbad, (claim8_upload_validation none tBad).2.1 hbad, hgood,
    (claim8_upload_validation none tGood).2.2 hgood⟩

/-- Claim C10 witness: the metric is well-defined on a concrete
one-row table. -/
theorem claim10_match_rate_division_witness :
    ([c7row] : List Row) ≠ []
    ∧ matchRateMetric (matchAll emission_factors [c7row])
        = some ((matchedCount (matchAll emission_factors [c7row]) : ℚ)
            / ((matchAll emission_factors [c7row]).length : ℚ) * 100) :=
  ⟨List.cons_ne_nil _ _,
    (claim10_match_rate_division emission_factors).2 [c7row]
      (List.cons_ne_nil _ _)⟩
